import Mathlib

/-!
Shallow embedding of the tech-docs-rag repository (Python) in Lean 4,
together with proofs about the embedded operations.

Embedded source files:
* `data_ingestion/processing.py` — whitespace normalization for PDFs.
* `data_ingestion/vespa_utils.py` — deterministic ids (MD5 of UTF-8 bytes),
  `save_to_vespa` (ingestion pipeline), `clean_database` (bulk purge).
* `vespa_config/vespa_client.py` — the per-host singleton constructor and the
  batch insert/delete semantics of the store gateway.
* `src/chatbot/conversation_session.py` and `src/chatbot/chatbot.py` — the
  session log, prompt construction, and the `get_answer` chat round.

Modeling conventions:
* Python exceptions become `PyErr` values carried in `Except`; every external
  call (OpenAI embedding/chat, Vespa feed/query/delete) is an oracle supplied
  by a `...World` structure, one field per call site, so that any combination
  of outcomes of the external services can be examined.
* Python's mutable state (the chatbot's session `dict`, the Vespa document
  store, the singleton registry) is passed explicitly; a `dict` is an
  insertion-ordered association list.
* Crucially, Python list aliasing is preserved: `ConversationSession.
  conversation_history` returns the session's `messages` list itself, so an
  `append` performed by `Chatbot.create_prompt` on the returned list mutates
  the session.  The embedding of `get_answer` threads that mutation.
* Embedding vectors are opaque payloads (the modeled code never computes with
  the float values, it only moves them around), so they are represented by an
  arbitrary coded type `Vec`.
* Timestamp fields (`created_at`, `updated_at`) are elided: no claim under
  study mentions them and no modeled control flow depends on them.
-/

set_option maxRecDepth 8192

namespace TechDocsRag

/-- A raised Python exception, by class: `exc m` is `Exception(m)` and
`httpExc s d` is `fastapi.HTTPException(status_code = s, detail = d)`.
The repository raises only these two classes. -/
inductive PyErr where
  | exc : String → PyErr
  | httpExc : Nat → String → PyErr
deriving DecidableEq

/-- The exception class of a raised error, as a caller distinguishing
failures by `except`-clause type would see it. -/
def errKind : PyErr → String
  | .exc _ => "Exception"
  | .httpExc _ _ => "HTTPException"

/-- Embedding vectors as opaque payloads (`List Nat` codes); the modeled code
never inspects the numeric contents of an embedding. -/
abbrev Vec := List Nat

/-! ### Python dicts as insertion-ordered association lists -/

/-- `d.get(k)` / `k in d` on a Python dict. -/
def lookupD {α : Type} : List (String × α) → String → Option α
  | [], _ => none
  | (k', v) :: rest, k => if k' = k then some v else lookupD rest k

/-- `d[k] = v` on a Python dict: update in place if the key exists,
else append a new entry. -/
def setD {α : Type} : List (String × α) → String → α → List (String × α)
  | [], k, v => [(k, v)]
  | (k', v') :: rest, k, v =>
    if k' = k then (k, v) :: rest else (k', v') :: setD rest k v

/-- `del d[k]` on a Python dict (the key is known to exist when used). -/
def delD {α : Type} : List (String × α) → String → List (String × α)
  | [], _ => []
  | (k', v') :: rest, k => if k' = k then rest else (k', v') :: delD rest k

/-! ### Whitespace, Python style

`processing.normalize_newlines` runs `re.sub(r'\s*\n\s*', ' ', text)` and then
`str.strip()`.  We model the whitespace class over its ASCII members
(space, tab, newline, carriage return, vertical tab, form feed); the repo's
documents are processed bytewise the same way for these characters. -/

/-- The ASCII characters matched by Python's `\s` (and stripped by
`str.strip()`). -/
def pySpace (c : Char) : Bool :=
  c = ' ' || c = '\t' || c = '\n' || c = '\r' || c = '\x0b' || c = '\x0c'

/-- Python `str.strip()` on a character list: drop whitespace from both ends. -/
def pyStripList (l : List Char) : List Char :=
  ((l.dropWhile pySpace).reverse.dropWhile pySpace).reverse

/-- Python `str.strip()`. -/
def pyStrip (s : String) : String := ⟨pyStripList s.data⟩

/-- One pending whitespace run, flushed: `re.sub(r'\s*\n\s*', ' ', ·)`
replaces a maximal whitespace run by a single space exactly when the run
contains a newline (the greedy match starting at the run's first character
extends over the whole run), and leaves it alone otherwise. -/
def flushRun (pend : List Char) : List Char :=
  if pend.contains '\n' then [' '] else pend

/-- The scanner for `re.sub(r'\s*\n\s*', ' ', text)`: `pend` is the
whitespace run accumulated so far (always a run of `pySpace` characters in
use).  On a non-whitespace character the pending run is flushed; at the end
the final pending run is flushed. -/
def subNlRuns (pend : List Char) : List Char → List Char
  | [] => flushRun pend
  | c :: cs =>
    if pySpace c then subNlRuns (pend ++ [c]) cs
    else flushRun pend ++ c :: subNlRuns [] cs

/-- `processing.normalize_newlines`:
`re.sub(r'\s*\n\s*', ' ', text)` followed by `.strip()`. -/
def normalize_newlines (s : String) : String :=
  ⟨pyStripList (subNlRuns [] s.data)⟩

/-- Modelled from the spec (for comparison with `normalize_newlines`): the
spec's `normalize` "replaces every run of whitespace characters containing a
line break with a single space and trims whitespace from both ends".  A
maximal whitespace run is read off with `takeWhile`; if it contains a line
break it becomes a single space, otherwise it is kept; finally both ends are
trimmed. -/
def specCollapse : List Char → List Char
  | [] => []
  | c :: cs =>
    if pySpace c then
      let run := (c :: cs).takeWhile pySpace
      let rest := (c :: cs).dropWhile pySpace
      (if run.contains '\n' then [' '] else run) ++ specCollapse rest
    else c :: specCollapse cs
termination_by l => l.length
decreasing_by
  all_goals simp_all [List.dropWhile_cons]
  have h := (List.dropWhile_sublist (l := cs) pySpace).length_le
  omega

/-- Modelled from the spec: `normalize` as described in the spec text. -/
def specNormalize (s : String) : String :=
  ⟨pyStripList (specCollapse s.data)⟩

/-! ### MD5 (`hashlib.md5(content.encode("utf-8")).hexdigest()`)

`vespa_utils.generate_deterministic_id` hashes the UTF-8 bytes of its input
with MD5 and returns the lowercase hex digest.  The algorithm below is RFC
1321, written over `Nat` with explicit reduction modulo `2 ^ 32`. -/

namespace MD5

/-- `2 ^ 32`, the word modulus. -/
def M32 : Nat := 4294967296

/-- Bitwise complement of a 32-bit word. -/
def not32 (x : Nat) : Nat := x ^^^ 4294967295

/-- Left rotation of a 32-bit word. -/
def rotl32 (x n : Nat) : Nat := ((x <<< n) % M32) ||| (x >>> (32 - n))

/-- The 64 sine-derived additive constants `K[i]` of RFC 1321. -/
def K : List Nat :=
  [0xd76aa478, 0xe8c7b756, 0x242070db, 0xc1bdceee,
   0xf57c0faf, 0x4787c62a, 0xa8304613, 0xfd469501,
   0x698098d8, 0x8b44f7af, 0xffff5bb1, 0x895cd7be,
   0x6b901122, 0xfd987193, 0xa679438e, 0x49b40821,
   0xf61e2562, 0xc040b340, 0x265e5a51, 0xe9b6c7aa,
   0xd62f105d, 0x02441453, 0xd8a1e681, 0xe7d3fbc8,
   0x21e1cde6, 0xc33707d6, 0xf4d50d87, 0x455a14ed,
   0xa9e3e905, 0xfcefa3f8, 0x676f02d9, 0x8d2a4c8a,
   0xfffa3942, 0x8771f681, 0x6d9d6122, 0xfde5380c,
   0xa4beea44, 0x4bdecfa9, 0xf6bb4b60, 0xbebfbc70,
   0x289b7ec6, 0xeaa127fa, 0xd4ef3085, 0x04881d05,
   0xd9d4d039, 0xe6db99e5, 0x1fa27cf8, 0xc4ac5665,
   0xf4292244, 0x432aff97, 0xab9423a7, 0xfc93a039,
   0x655b59c3, 0x8f0ccc92, 0xffeff47d, 0x85845dd1,
   0x6fa87e4f, 0xfe2ce6e0, 0xa3014314, 0x4e0811a1,
   0xf7537e82, 0xbd3af235, 0x2ad7d2bb, 0xeb86d391]

/-- The per-round left-rotation amounts `s[i]` of RFC 1321. -/
def S : List Nat :=
  [7, 12, 17, 22, 7, 12, 17, 22, 7, 12, 17, 22, 7, 12, 17, 22,
   5, 9, 14, 20, 5, 9, 14, 20, 5, 9, 14, 20, 5, 9, 14, 20,
   4, 11, 16, 23, 4, 11, 16, 23, 4, 11, 16, 23, 4, 11, 16, 23,
   6, 10, 15, 21, 6, 10, 15, 21, 6, 10, 15, 21, 6, 10, 15, 21]

/-- One of the 64 rounds of the MD5 compression function: `m` is the 16-word
message block, `i` the round index, `(a, b, c, d)` the working state. -/
def roundStep (m : List Nat) (st : Nat × Nat × Nat × Nat) (i : Nat) :
    Nat × Nat × Nat × Nat :=
  let (a, b, c, d) := st
  let fg : Nat × Nat :=
    if i < 16 then ((b &&& c) ||| (not32 b &&& d), i)
    else if i < 32 then ((d &&& b) ||| (not32 d &&& c), (5 * i + 1) % 16)
    else if i < 48 then (b ^^^ c ^^^ d, (3 * i + 5) % 16)
    else (c ^^^ (b ||| not32 d), (7 * i) % 16)
  let f := (fg.1 + a + K.getD i 0 + m.getD fg.2 0) % M32
  (d, (b + rotl32 f (S.getD i 0)) % M32, b, c)

/-- The MD5 compression function on one 64-byte block (given as 16 little-
endian words), added onto the chaining state. -/
def processBlock (st : Nat × Nat × Nat × Nat) (m : List Nat) :
    Nat × Nat × Nat × Nat :=
  let (a0, b0, c0, d0) := st
  let (a, b, c, d) := (List.range 64).foldl (roundStep m) (a0, b0, c0, d0)
  ((a0 + a) % M32, (b0 + b) % M32, (c0 + c) % M32, (d0 + d) % M32)

/-- Four consecutive bytes to one little-endian 32-bit word. -/
def wordsLE : List Nat → List Nat
  | b0 :: b1 :: b2 :: b3 :: rest =>
    (b0 + 256 * b1 + 65536 * b2 + 16777216 * b3) :: wordsLE rest
  | _ => []

/-- MD5 padding: append `0x80`, zero bytes to 56 mod 64, then the original
length in bits as 8 little-endian bytes. -/
def padMsg (bytes : List Nat) : List Nat :=
  let len := bytes.length
  let zeros := (64 + 56 - (len + 1) % 64) % 64
  let bitLen := (8 * len) % (2 ^ 64)
  bytes ++ 0x80 :: List.replicate zeros 0 ++
    (List.range 8).map (fun i => (bitLen >>> (8 * i)) % 256)

/-- Split the padded message into 64-byte blocks (structural recursion on a
fuel bound, so that the kernel can evaluate it; `fuel = l.length` always
suffices because each step drops at least one byte). -/
def toBlocksGo : Nat → List Nat → List (List Nat)
  | 0, _ => []
  | _, [] => []
  | fuel + 1, b :: bs => (b :: bs).take 64 :: toBlocksGo fuel ((b :: bs).drop 64)

/-- Split the padded message into 64-byte blocks. -/
def toBlocks (l : List Nat) : List (List Nat) := toBlocksGo l.length l

/-- One hex digit, lowercase as `hexdigest` prints it. -/
def hexDigit (n : Nat) : Char :=
  if n < 10 then Char.ofNat (48 + n) else Char.ofNat (87 + n)

/-- One byte as two hex digits. -/
def byteHex (b : Nat) : List Char := [hexDigit (b / 16), hexDigit (b % 16)]

/-- One 32-bit word as 8 hex digits, little-endian byte order as in
`hexdigest`. -/
def wordHexLE (w : Nat) : List Char :=
  byteHex (w % 256) ++ byteHex ((w >>> 8) % 256) ++
    byteHex ((w >>> 16) % 256) ++ byteHex ((w >>> 24) % 256)

/-- UTF-8 encoding of one code point (Python `str.encode("utf-8")`). -/
def utf8Bytes (c : Nat) : List Nat :=
  if c < 0x80 then [c]
  else if c < 0x800 then [0xc0 + c / 64, 0x80 + c % 64]
  else if c < 0x10000 then
    [0xe0 + c / 4096, 0x80 + (c / 64) % 64, 0x80 + c % 64]
  else
    [0xf0 + c / 262144, 0x80 + (c / 4096) % 64, 0x80 + (c / 64) % 64,
     0x80 + c % 64]

/-- The UTF-8 bytes of a string. -/
def strBytes (s : String) : List Nat :=
  (s.data.map (fun ch => utf8Bytes ch.toNat)).flatten

/-- `hashlib.md5(s.encode("utf-8")).hexdigest()`. -/
def md5Hex (s : String) : String :=
  let blocks := (toBlocks (padMsg (strBytes s))).map wordsLE
  let st := blocks.foldl processBlock (0x67452301, 0xefcdab89, 0x98badcfe, 0x10325476)
  ⟨wordHexLE st.1 ++ wordHexLE st.2.1 ++ wordHexLE st.2.2.1 ++ wordHexLE st.2.2.2⟩

end MD5

/-- `vespa_utils.generate_deterministic_id`: the MD5 hex digest of the
UTF-8 bytes of `content`. -/
def generate_deterministic_id (content : String) : String :=
  MD5.md5Hex content

/-! ### `vespa_config/vespa_client.py`: the per-host singleton constructor

`VespaClient.__new__` keeps a class-level dict `_instances` keyed by
`vespa_host` only; an instance records the endpoint URL it was built with.
Object identity is modeled by an allocation number `iid` drawn from a
counter, so "the identical instance" is expressible. -/

/-- One constructed `VespaClient`: its allocation identity and the endpoint
URL `"http://{vespa_host}:{vespa_port}"` captured at construction. -/
structure VespaInstance where
  iid : Nat
  url : String
deriving DecidableEq

/-- The class-level state of `VespaClient`: the `_instances` dict plus the
allocation counter for object identities. -/
structure VespaRegistry where
  instances : List (String × VespaInstance)
  nextId : Nat
deriving DecidableEq

/-- The endpoint URL `Vespa(url = f"http://{vespa_host}:{vespa_port}")`. -/
def vespaUrl (vespa_host vespa_port : String) : String :=
  "http://" ++ vespa_host ++ ":" ++ vespa_port

/-- `VespaClient.__new__(cls, vespa_host, vespa_port)`: if `_instances` has no
entry for `vespa_host`, allocate a fresh instance connected to
`vespaUrl vespa_host vespa_port` and register it; in every case return
`_instances[vespa_host]`. -/
def vespaClientNew (vespa_host vespa_port : String) (r : VespaRegistry) :
    VespaInstance × VespaRegistry :=
  match lookupD r.instances vespa_host with
  | some inst => (inst, r)
  | none =>
    let inst : VespaInstance := ⟨r.nextId, vespaUrl vespa_host vespa_port⟩
    (inst, ⟨setD r.instances vespa_host inst, r.nextId + 1⟩)

/-! ### `data_ingestion/vespa_utils.py`: records and the ingestion pipeline -/

/-- The `fields` of a resource record as assembled by `save_to_vespa`
(timestamps elided, see the header). -/
structure ResourceFields where
  resource_id : String
  resource_type : String
  raw_text : String
  cleaned_text : String
  embedding : Vec
deriving DecidableEq

/-- The `fields` of a chunk record as assembled by `save_to_vespa`. -/
structure ChunkFields where
  chunk_id : String
  resource_id : String
  resource_type : String
  chunk_text : String
  chunk_ordinal : Nat
  embedding : Vec
deriving DecidableEq

/-- A record in the `resources` collection: `{id, fields}`. -/
structure ResourceRecord where
  id : String
  fields : ResourceFields
deriving DecidableEq

/-- A record in the `chunks` collection: `{id, fields}`. -/
structure ChunkRecord where
  id : String
  fields : ChunkFields
deriving DecidableEq

/-- The two Vespa collections the repository persists. -/
structure VespaDB where
  resources : List ResourceRecord
  chunks : List ChunkRecord
deriving DecidableEq

/-- Feeding a document upserts by id (`app.feed_data_point` /
`app.feed_batch`): replace the record with the same id, else append. -/
def feedResource (db : List ResourceRecord) (r : ResourceRecord) :
    List ResourceRecord :=
  if db.any (fun x => x.id = r.id) then
    db.map (fun x => if x.id = r.id then r else x)
  else db ++ [r]

/-- Feeding a chunk record, same upsert-by-id semantics. -/
def feedChunk (db : List ChunkRecord) (c : ChunkRecord) : List ChunkRecord :=
  if db.any (fun x => x.id = c.id) then
    db.map (fun x => if x.id = c.id then c else x)
  else db ++ [c]

/-- The external-call oracles of one `save_to_vespa` run: the outcome of each
OpenAI embedding call (per input text), the chunker's output (the langchain
splitters are external collaborators, so their result is oracle data), and
the per-record outcome of the Vespa feed operations. -/
structure IngestWorld where
  embed : String → Except PyErr Vec
  chunkFn : String → String → List String
  insertResourceOk : Bool
  chunkInsertOk : String → Bool

/-- The hash input for a chunk id: `f"{resource_id}-{chunk.page_content}"`. -/
def chunkHashInput (resource_id chunk_text : String) : String :=
  resource_id ++ "-" ++ chunk_text

/-- The chunk id computed by `save_to_vespa`. -/
def chunk_id_of (resource_id chunk_text : String) : String :=
  generate_deterministic_id (chunkHashInput resource_id chunk_text)

/-- The cleaned text stored by `save_to_vespa`: `clean_document` (which is
`normalize_newlines` on the page content) for `"application/pdf"`, the raw
text unchanged for every other resource type. -/
def cleaned_text_of (resource_type raw_text : String) : String :=
  if resource_type = "application/pdf" then normalize_newlines raw_text
  else raw_text

/-- The `for idx, chunk in enumerate(chunks)` loop of `save_to_vespa`: builds
the chunk records in order, with `chunk_ordinal = idx`; the first failing
embedding call aborts the loop (and hence the whole operation) before
anything is inserted. -/
def buildChunkRecords (w : IngestWorld) (resource_id resource_type : String) :
    Nat → List String → Except PyErr (List ChunkRecord)
  | _, [] => .ok []
  | idx, t :: ts =>
    let cid := chunk_id_of resource_id t
    match w.embed t with
    | .error e => .error e
    | .ok emb =>
      match buildChunkRecords w resource_id resource_type (idx + 1) ts with
      | .error e => .error e
      | .ok rest =>
        .ok (⟨cid, ⟨cid, resource_id, resource_type, t, idx, emb⟩⟩ :: rest)

/-- `VespaClient.insert_many("chunks", records)` via `app.feed_batch`: every
record in the batch is attempted (those whose outcome is good are applied);
afterwards the first bad outcome raises, and already-applied records are not
rolled back. -/
def insertManyChunks (w : IngestWorld) (db : List ChunkRecord)
    (recs : List ChunkRecord) : Except PyErr Unit × List ChunkRecord :=
  let db' := recs.foldl
    (fun acc r => if w.chunkInsertOk r.id then feedChunk acc r else acc) db
  match recs.find? (fun r => ¬ w.chunkInsertOk r.id) with
  | some r => (.error (.exc ("Error while writing record with id " ++ r.id)), db')
  | none => (.ok (), db')

/-- `vespa_utils.save_to_vespa(resource, resource_type)`: compute the
deterministic resource id, clean (PDF only) and embed the text, insert the
resource record, then chunk, embed and bulk-insert the chunk records.  Any
raised error propagates and aborts the remaining steps; the returned store
is the store at the point the error was raised. -/
def save_to_vespa (w : IngestWorld) (page_content resource_type : String)
    (db : VespaDB) : Except PyErr Unit × VespaDB :=
  let resource_id := generate_deterministic_id page_content
  let cleaned := cleaned_text_of resource_type page_content
  match w.embed cleaned with
  | .error e => (.error e, db)
  | .ok resource_embedding =>
    let resource_record : ResourceRecord :=
      ⟨resource_id,
        ⟨resource_id, resource_type, page_content, cleaned, resource_embedding⟩⟩
    if w.insertResourceOk then
      let db₁ : VespaDB :=
        { db with resources := feedResource db.resources resource_record }
      let chunks := w.chunkFn resource_type cleaned
      match buildChunkRecords w resource_id resource_type 0 chunks with
      | .error e => (.error e, db₁)
      | .ok recs =>
        let (res, chunkDb) := insertManyChunks w db₁.chunks recs
        (res, { db₁ with chunks := chunkDb })
    else
      (.error (.exc ("Error while writing record with id " ++ resource_id ++ ".")),
        db)

/-! ### `vespa_utils.clean_database`: bulk purge of both collections -/

/-- Per-id outcomes of the two `delete_batch` calls issued by
`clean_database` (one per collection). -/
structure CleanWorld where
  resDeleteOk : String → Bool
  chunkDeleteOk : String → Bool

/-- `delete_items("resources", "resource_id")`: query every record, collect
`item['fields']['resource_id']`, and if the list is non-empty delete those
ids in one batch (`delete_many` is itself a no-op on an empty id list).  A
record is removed when its document id is among the collected ids and that
delete outcome is good; the first bad outcome raises after the batch ran. -/
def deleteItemsResources (w : CleanWorld) (db : List ResourceRecord) :
    Except PyErr Unit × List ResourceRecord :=
  let ids := db.map (fun r => r.fields.resource_id)
  if ids.isEmpty then (.ok (), db)
  else
    let db' := db.filter (fun r => ¬ (ids.contains r.id ∧ w.resDeleteOk r.id))
    match ids.find? (fun i => ¬ w.resDeleteOk i) with
    | some i => (.error (.exc ("Error while deleting record with id " ++ i ++ ".")), db')
    | none => (.ok (), db')

/-- `delete_items("chunks", "chunk_id")`, same shape. -/
def deleteItemsChunks (w : CleanWorld) (db : List ChunkRecord) :
    Except PyErr Unit × List ChunkRecord :=
  let ids := db.map (fun c => c.fields.chunk_id)
  if ids.isEmpty then (.ok (), db)
  else
    let db' := db.filter (fun c => ¬ (ids.contains c.id ∧ w.chunkDeleteOk c.id))
    match ids.find? (fun i => ¬ w.chunkDeleteOk i) with
    | some i => (.error (.exc ("Error while deleting record with id " ++ i ++ ".")), db')
    | none => (.ok (), db')

/-- `vespa_utils.clean_database()`: purge the `resources` collection, then the
`chunks` collection; an error in the first aborts before the second runs. -/
def clean_database (w : CleanWorld) (db : VespaDB) : Except PyErr Unit × VespaDB :=
  match deleteItemsResources w db.resources with
  | (.error e, res') => (.error e, { db with resources := res' })
  | (.ok _, res') =>
    match deleteItemsChunks w db.chunks with
    | (.error e, ch') => (.error e, ⟨res', ch'⟩)
    | (.ok _, ch') => (.ok (), ⟨res', ch'⟩)

/-! ### `src/chatbot`: sessions, prompt construction, the chat round

A `ConversationSession` is its ordered `messages` list (`updated_at` elided).
`Chatbot.sessions` is the dict `session_id → session`.  The aliasing that
drives claims C1/C2 is made explicit: `conversation_history()` returns the
session's own `messages` list, `create_prompt` appends the user turn to that
list, and in Python that `append` mutates the stored session — so the model
of `get_answer` writes the extended list back into the session map at the
point `create_prompt` runs. -/

/-- One `{"role": ..., "content": ...}` chat message. -/
structure Message where
  role : String
  content : String
deriving DecidableEq

/-- `Chatbot.sessions`: dict from session id to that session's messages. -/
abbrev Sessions := List (String × List Message)

/-- One retrieved hit's `fields` (only `chunk_text` is read by the chatbot). -/
structure HitFields where
  chunk_text : String
deriving DecidableEq

/-- One hit returned by `semantic_search` (`chunk["fields"]["chunk_text"]`). -/
structure Hit where
  fields : HitFields
deriving DecidableEq

/-- `f'{message["role"]}: {message["content"]}'`. -/
def fmtMessage (m : Message) : String := m.role ++ ": " ++ m.content

/-- The fixed role-framing system instruction of `Chatbot.create_prompt`. -/
def chatbotSystemText : String :=
  "You are a Technical Documentation AI Assistant. Your role is to provide accurate and precise answers " ++
  "based on the provided context chunks if possible. You are only allowed to discuss technical documentation " ++
  "and related questions. If the requested information is not in the provided context, respond with 'I'm sorry, but I cannot answer that based on the given information.' " ++
  "You must not make up answers. Here is the context and conversation history:"

/-- `Chatbot.create_prompt(question, context, conversation_history)`.  Returns
the three system messages sent to the LM *and* the conversation-history list
after the method's `conversation_history.append({"role": "user", "content":
question})` — in Python that append mutates the very list object the caller
passed in. -/
def create_prompt (question : String) (context : List Hit)
    (conversation_history : List Message) : List Message × List Message :=
  let context_chunks := context.map (fun c => c.fields.chunk_text)
  let merged_context_chunks := String.intercalate "\n\n" context_chunks
  let history' := conversation_history ++ [⟨"user", question⟩]
  let conversation_history_text :=
    String.intercalate "\n" (history'.map fmtMessage)
  ([⟨"system", chatbotSystemText⟩,
    ⟨"system", "Context chunks:\n\n" ++ merged_context_chunks⟩,
    ⟨"system", "Conversation history:\n\n" ++ conversation_history_text⟩],
   history')

/-- The external-call oracles of one `get_answer` round, one per call site:
the rephrasing chat completion, the query-embedding call made inside
`semantic_search`, the Vespa query, and the final chat completion. -/
structure ChatWorld where
  rephraseLM : Except PyErr String
  embedQuery : Except PyErr Vec
  searchHits : Except PyErr (List Hit)
  answerLM : Except PyErr String

/-- What `get_answer` handed to its collaborators: the query text passed to
`semantic_search`, and the message list sent to the final chat completion
(`none` when the run aborted before reaching that call). -/
structure ChatTrace where
  searchQuery : Option String
  finalPrompt : Option (List Message)
deriving DecidableEq

/-- Step 1 of `get_answer`: `if session_id not in self.sessions:
self.sessions[session_id] = ConversationSession(session_id)`. -/
def ensureSession (session_id : String) (sessions : Sessions) : Sessions :=
  if (lookupD sessions session_id).isSome then sessions
  else setD sessions session_id []

/-- `Chatbot.get_answer(question, session_id)` over a `ChatWorld`: create the
session if needed, rephrase (LM call, result `.strip()`-ped), retrieve
context for the rephrased question (embedding call then store query), build
the prompt (whose `append` persists the user turn into the session, by
aliasing), call the LM, and append the assistant turn.  Any step's error
aborts the rest; the returned session map is the map at the abort point. -/
def get_answer (w : ChatWorld) (question session_id : String)
    (sessions : Sessions) : Except PyErr String × Sessions × ChatTrace :=
  let s₁ := ensureSession session_id sessions
  match w.rephraseLM with
  | .error e => (.error e, s₁, ⟨none, none⟩)
  | .ok raw =>
    let rephrased_question := pyStrip raw
    match w.embedQuery with
    | .error e => (.error e, s₁, ⟨some rephrased_question, none⟩)
    | .ok _ =>
      match w.searchHits with
      | .error e => (.error e, s₁, ⟨some rephrased_question, none⟩)
      | .ok context =>
        let history := (lookupD s₁ session_id).getD []
        let (prompt, history') := create_prompt question context history
        let s₂ := setD s₁ session_id history'
        match w.answerLM with
        | .error e => (.error e, s₂, ⟨some rephrased_question, some prompt⟩)
        | .ok answer =>
          let s₃ := setD s₂ session_id (history' ++ [⟨"assistant", answer⟩])
          (.ok answer, s₃, ⟨some rephrased_question, some prompt⟩)

/-- `Chatbot.remove_session(session_id)`: delete the entry if present, else
raise `Exception(f"Session with ID {session_id} does not exist.")`. -/
def remove_session (session_id : String) (sessions : Sessions) :
    Except PyErr Unit × Sessions :=
  if (lookupD sessions session_id).isSome then (.ok (), delD sessions session_id)
  else
    (.error (.exc ("Session with ID " ++ session_id ++ " does not exist.")),
      sessions)

/-! ## Supporting lemmas -/

/-- MD5 test vector (RFC 1321): evidence that the embedded hash is the
function `hashlib.md5` computes. -/
theorem md5Hex_empty : MD5.md5Hex "" = "d41d8cd98f00b204e9800998ecf8427e" := by decide

/-- MD5 test vector (RFC 1321). -/
theorem md5Hex_abc : MD5.md5Hex "abc" = "900150983cd24fb0d6963f7d28e17f72" := by decide

/-- Looking up the key just set returns the value just set. -/
theorem lookupD_setD_self {α : Type} (m : List (String × α)) (k : String) (v : α) :
    lookupD (setD m k v) k = some v := by
  induction m with
  | nil => simp [setD, lookupD]
  | cons p rest ih =>
    by_cases h : p.1 = k
    · simp [setD, h, lookupD]
    · simp [setD, h, lookupD, ih]

/-- Strings agreeing on their character lists are equal. -/
theorem stringEqOfData {s t : String} (h : s.data = t.data) : s = t := by
  cases s; cases t; simp_all

/-- Appending the same tail on the right is injective on strings. -/
theorem stringAppendCancelRight {a b c : String} (h : a ++ c = b ++ c) : a = b := by
  have hd : a.data ++ c.data = b.data ++ c.data := by
    have := congrArg String.data h
    simpa [String.data_append] using this
  exact stringEqOfData (List.append_cancel_right hd)

/-- With the same chunk text, the chunk hash inputs of distinct resource ids
are distinct. -/
theorem chunkHashInput_injective_left {r₁ r₂ t : String}
    (h : chunkHashInput r₁ t = chunkHashInput r₂ t) : r₁ = r₂ := by
  have h' : (r₁ ++ "-") ++ t = (r₂ ++ "-") ++ t := by
    simpa [chunkHashInput, String.append_assoc] using h
  exact stringAppendCancelRight (stringAppendCancelRight h')

/-! ## C4 -/

/-- C4: `contentHash` (here `generate_deterministic_id`, the MD5 hex digest)
is deterministic — two calls on the same text give the same id — and chunk
identity mixes the parent resource id into the hashed content: `chunk_id` is
the pure function `(resource_id, chunk_text) ↦ md5(resource_id ++ "-" ++
chunk_text)`, so identical text under the same resource maps to the same id,
while the same text under distinct resource ids maps to distinct hash
inputs. -/
theorem contentHash_deterministic_chunk_identity (T r₁ r₂ t : String)
    (h : r₁ ≠ r₂) :
    generate_deterministic_id T = generate_deterministic_id T ∧
    chunk_id_of r₁ t = generate_deterministic_id (chunkHashInput r₁ t) ∧
    chunk_id_of r₁ t = chunk_id_of r₁ t ∧
    chunkHashInput r₁ t ≠ chunkHashInput r₂ t :=
  ⟨rfl, rfl, rfl, fun hinp => h (chunkHashInput_injective_left hinp)⟩

/-- Witness for C4 at concrete inputs. -/
theorem contentHash_deterministic_chunk_identity_witness :
    ("res-a" : String) ≠ "res-b" ∧
    (generate_deterministic_id "T" = generate_deterministic_id "T" ∧
     chunk_id_of "res-a" "txt" = generate_deterministic_id (chunkHashInput "res-a" "txt") ∧
     chunk_id_of "res-a" "txt" = chunk_id_of "res-a" "txt" ∧
     chunkHashInput "res-a" "txt" ≠ chunkHashInput "res-b" "txt") :=
  ⟨by decide, contentHash_deterministic_chunk_identity "T" "res-a" "res-b" "txt" (by decide)⟩

/-! ## C10 -/

/-- C10: `VespaClient` construction is a per-host singleton.  For a host `h`
not yet registered, constructing with port `p₁` and then with any port `p₂`
returns the identical instance both times (the registry is not even touched
by the second call), and the instance's endpoint URL is the one built from
`p₁`: the second call's port is silently ignored. -/
theorem vespaClient_singleton_per_host (h p₁ p₂ : String) (r : VespaRegistry)
    (hfresh : lookupD r.instances h = none) :
    (vespaClientNew h p₂ (vespaClientNew h p₁ r).2).1 = (vespaClientNew h p₁ r).1 ∧
    (vespaClientNew h p₂ (vespaClientNew h p₁ r).2).2 = (vespaClientNew h p₁ r).2 ∧
    (vespaClientNew h p₂ (vespaClientNew h p₁ r).2).1.url = vespaUrl h p₁ := by
  simp only [vespaClientNew, hfresh]
  simp [lookupD_setD_self]

/-- Witness for C10: a fresh registry, host `"vespa"`, ports `"8080"` then
`"9999"`. -/
theorem vespaClient_singleton_per_host_witness :
    lookupD (VespaRegistry.mk [] 0).instances "vespa" = none ∧
    ((vespaClientNew "vespa" "9999" (vespaClientNew "vespa" "8080" ⟨[], 0⟩).2).1 =
       (vespaClientNew "vespa" "8080" ⟨[], 0⟩).1 ∧
     (vespaClientNew "vespa" "9999" (vespaClientNew "vespa" "8080" ⟨[], 0⟩).2).2 =
       (vespaClientNew "vespa" "8080" ⟨[], 0⟩).2 ∧
     (vespaClientNew "vespa" "9999" (vespaClientNew "vespa" "8080" ⟨[], 0⟩).2).1.url =
       vespaUrl "vespa" "8080") :=
  ⟨by decide, vespaClient_singleton_per_host "vespa" "8080" "9999" ⟨[], 0⟩ (by decide)⟩

/-! ## C9 -/

/-- World for the C9 counterexample: the resource embedding succeeds and the
resource insert fails, producing a store-write error. -/
def c9InsertFailWorld : IngestWorld :=
  ⟨fun _ => .ok [], fun _ _ => [], false, fun _ => true⟩

/-- C9 counterexample: removing a never-created session id does fail and does
leave the map unchanged, but the surfaced error is a plain `Exception` — the
very same exception class that, for example, a Vespa store-write failure
surfaces — so it is *not* a `NotFoundError` surfaced distinctly from other
failure kinds; only the message text distinguishes it. -/
theorem remove_session_error_not_distinct :
    (remove_session "sess-1" []).1 =
      .error (.exc "Session with ID sess-1 does not exist.") ∧
    (remove_session "sess-1" []).2 = [] ∧
    (save_to_vespa c9InsertFailWorld "doc" "text/markdown" ⟨[], []⟩).1 =
      .error (.exc ("Error while writing record with id " ++
        generate_deterministic_id "doc" ++ ".")) ∧
    errKind (.exc "Session with ID sess-1 does not exist.") =
      errKind (.exc ("Error while writing record with id " ++
        generate_deterministic_id "doc" ++ ".")) :=
  ⟨rfl, rfl, rfl, rfl⟩

/-- C9 as amended: removing a session id absent from the session map fails
with a raised generic `Exception` whose message names the missing id
(`"Session with ID {id} does not exist."`) — distinguished from other
failures only by that message, not by a dedicated error class — and the
session map is unchanged by the failed removal. -/
theorem remove_session_unknown (sid : String) (s : Sessions)
    (h : lookupD s sid = none) :
    remove_session sid s =
      (.error (.exc ("Session with ID " ++ sid ++ " does not exist.")), s) ∧
    errKind (.exc ("Session with ID " ++ sid ++ " does not exist.")) =
      "Exception" := by
  constructor
  · simp [remove_session, h]
  · rfl

/-- Witness for C9 at a concrete unknown id and a non-empty map. -/
theorem remove_session_unknown_witness :
    lookupD [("other", ([] : List Message))] "sess-9" = none ∧
    (remove_session "sess-9" [("other", [])] =
      (.error (.exc ("Session with ID " ++ "sess-9" ++ " does not exist.")),
        [("other", [])]) ∧
     errKind (.exc ("Session with ID " ++ "sess-9" ++ " does not exist.")) =
       "Exception") :=
  ⟨by decide, remove_session_unknown "sess-9" [("other", [])] (by decide)⟩

/-! ## C7 -/

/-- The ordinals and texts of the records built by the `enumerate` loop,
starting at index `i`. -/
theorem buildChunkRecords_ordinals (w : IngestWorld) (rid rt : String) :
    ∀ (ts : List String) (i : Nat) (recs : List ChunkRecord),
      buildChunkRecords w rid rt i ts = .ok recs →
      recs.map (fun r => r.fields.chunk_ordinal) = List.range' i ts.length ∧
      recs.map (fun r => r.fields.chunk_text) = ts := by
  intro ts
  induction ts with
  | nil =>
    intro i recs h
    simp only [buildChunkRecords, Except.ok.injEq] at h
    subst h
    simp [List.range']
  | cons t ts ih =>
    intro i recs h
    simp only [buildChunkRecords] at h
    cases he : w.embed t with
    | error e => rw [he] at h; exact absurd h (by simp)
    | ok emb =>
      rw [he] at h
      cases hr : buildChunkRecords w rid rt (i + 1) ts with
      | error e => rw [hr] at h; exact absurd h (by simp)
      | ok rest =>
        rw [hr] at h
        simp only [Except.ok.injEq] at h
        subst h
        have ⟨h₁, h₂⟩ := ih (i + 1) rest hr
        simp [List.range', h₁, h₂]

/-- C7: when the chunker yields `N` chunks and the per-chunk loop of
`save_to_vespa` completes, the assembled chunk records carry
`chunk_ordinal` values that are exactly `0 .. N-1` — dense, zero-based,
pairwise distinct — assigned in the order the chunks were produced (the
`i`-th record holds the `i`-th chunk text). -/
theorem chunk_ordinals_dense (w : IngestWorld) (page_content resource_type : String)
    (recs : List ChunkRecord)
    (h : buildChunkRecords w (generate_deterministic_id page_content) resource_type 0
           (w.chunkFn resource_type (cleaned_text_of resource_type page_content)) =
         .ok recs) :
    recs.map (fun r => r.fields.chunk_ordinal) =
      List.range (w.chunkFn resource_type (cleaned_text_of resource_type page_content)).length ∧
    (recs.map (fun r => r.fields.chunk_ordinal)).Nodup ∧
    recs.map (fun r => r.fields.chunk_text) =
      w.chunkFn resource_type (cleaned_text_of resource_type page_content) := by
  have ⟨h₁, h₂⟩ := buildChunkRecords_ordinals w _ resource_type _ 0 recs h
  refine ⟨?_, ?_, h₂⟩
  · rw [h₁, List.range_eq_range']
  · rw [h₁, ← List.range_eq_range']
    exact List.nodup_range _

/-- World for the C7 witness: embeddings succeed, the chunker yields two
chunks, all inserts succeed. -/
def c7World : IngestWorld :=
  ⟨fun _ => .ok [], fun _ _ => ["ab", "cd"], true, fun _ => true⟩

/-- The resource id of the C7 witness resource. -/
def c7Rid : String := generate_deterministic_id "abcd"

/-- The two chunk records the C7 witness run assembles. -/
def c7Recs : List ChunkRecord :=
  [⟨chunk_id_of c7Rid "ab", ⟨chunk_id_of c7Rid "ab", c7Rid, "text/markdown", "ab", 0, []⟩⟩,
   ⟨chunk_id_of c7Rid "cd", ⟨chunk_id_of c7Rid "cd", c7Rid, "text/markdown", "cd", 1, []⟩⟩]

/-- Witness for C7 on a concrete two-chunk run. -/
theorem chunk_ordinals_dense_witness :
    buildChunkRecords c7World (generate_deterministic_id "abcd") "text/markdown" 0
        (c7World.chunkFn "text/markdown" (cleaned_text_of "text/markdown" "abcd")) =
      .ok c7Recs ∧
    (c7Recs.map (fun r => r.fields.chunk_ordinal) =
       List.range (c7World.chunkFn "text/markdown"
         (cleaned_text_of "text/markdown" "abcd")).length ∧
     (c7Recs.map (fun r => r.fields.chunk_ordinal)).Nodup ∧
     c7Recs.map (fun r => r.fields.chunk_text) =
       c7World.chunkFn "text/markdown" (cleaned_text_of "text/markdown" "abcd")) :=
  ⟨rfl, chunk_ordinals_dense c7World "abcd" "text/markdown" c7Recs rfl⟩

/-! ## C3 -/

/-- Membership after one chunk upsert: the record is an old one or the fed
one. -/
theorem mem_feedChunk {db : List ChunkRecord} {x c : ChunkRecord}
    (h : c ∈ feedChunk db x) : c ∈ db ∨ c = x := by
  unfold feedChunk at h
  split at h
  · rcases List.mem_map.mp h with ⟨y, hy, hyx⟩
    by_cases hid : y.id = x.id
    · simp [hid] at hyx; right; exact hyx.symm
    · simp [hid] at hyx; left; exact hyx ▸ hy
  · rcases List.mem_append.mp h with h' | h'
    · left; exact h'
    · right; simpa using h'

/-- Membership after the chunk batch feed: the record is an old one or one of
the batch. -/
theorem mem_insertManyFold (w : IngestWorld) :
    ∀ (recs : List ChunkRecord) (db : List ChunkRecord) (c : ChunkRecord),
      c ∈ recs.foldl
            (fun acc r => if w.chunkInsertOk r.id then feedChunk acc r else acc) db →
      c ∈ db ∨ c ∈ recs := by
  intro recs
  induction recs with
  | nil => intro db c h; exact .inl h
  | cons r rest ih =>
    intro db c h
    simp only [List.foldl_cons] at h
    rcases ih _ c h with h' | h'
    · by_cases hok : w.chunkInsertOk r.id
      · rw [if_pos hok] at h'
        rcases mem_feedChunk h' with h'' | h''
        · exact .inl h''
        · exact .inr (by simp [h''])
      · rw [if_neg hok] at h'
        exact .inl h'
    · exact .inr (List.mem_cons_of_mem r h')

/-- Every record built by the chunk loop carries the parent resource id. -/
theorem buildChunkRecords_resource_id (w : IngestWorld) (rid rt : String) :
    ∀ (ts : List String) (i : Nat) (recs : List ChunkRecord),
      buildChunkRecords w rid rt i ts = .ok recs →
      ∀ c ∈ recs, c.fields.resource_id = rid := by
  intro ts
  induction ts with
  | nil =>
    intro i recs h
    simp only [buildChunkRecords, Except.ok.injEq] at h
    subst h
    simp
  | cons t ts ih =>
    intro i recs h
    simp only [buildChunkRecords] at h
    cases he : w.embed t with
    | error e => rw [he] at h; exact absurd h (by simp)
    | ok emb =>
      rw [he] at h
      cases hr : buildChunkRecords w rid rt (i + 1) ts with
      | error e => rw [hr] at h; exact absurd h (by simp)
      | ok rest =>
        rw [hr] at h
        simp only [Except.ok.injEq] at h
        subst h
        intro c hc
        rcases List.mem_cons.mp hc with h' | h'
        · rw [h']
        · exact ih (i + 1) rest hr c h'

/-- The record just fed is in the collection afterwards. -/
theorem self_mem_feedResource (db : List ResourceRecord) (r : ResourceRecord) :
    r ∈ feedResource db r := by
  unfold feedResource
  split
  · next hany =>
    rcases List.any_eq_true.mp hany with ⟨x, hx, hid⟩
    exact List.mem_map.mpr ⟨x, hx, by simp_all⟩
  · simp

/-- The chunk collection after the batch feed, independent of whether the
batch then raises. -/
theorem insertManyChunks_snd (w : IngestWorld) (db : List ChunkRecord)
    (recs : List ChunkRecord) :
    (insertManyChunks w db recs).2 =
      recs.foldl (fun acc r => if w.chunkInsertOk r.id then feedChunk acc r else acc)
        db := by
  simp only [insertManyChunks]
  cases List.find? (fun r => ¬ w.chunkInsertOk r.id) recs <;> rfl

/-- The resource record assembled by `save_to_vespa`. -/
def assembledResource (page_content resource_type : String) (remb : Vec) :
    ResourceRecord :=
  ⟨generate_deterministic_id page_content,
   ⟨generate_deterministic_id page_content, resource_type, page_content,
    cleaned_text_of resource_type page_content, remb⟩⟩

/-- Evaluation of `save_to_vespa` when the resource embedding call fails. -/
theorem save_to_vespa_embed_error (w : IngestWorld) (pc rt : String)
    (db : VespaDB) (e : PyErr)
    (he : w.embed (cleaned_text_of rt pc) = .error e) :
    save_to_vespa w pc rt db = (.error e, db) := by
  simp [save_to_vespa, he]

/-- Evaluation of `save_to_vespa` when the resource insert fails. -/
theorem save_to_vespa_insert_fail (w : IngestWorld) (pc rt : String)
    (db : VespaDB) (remb : Vec)
    (he : w.embed (cleaned_text_of rt pc) = .ok remb)
    (hins : w.insertResourceOk = false) :
    save_to_vespa w pc rt db =
      (.error (.exc ("Error while writing record with id " ++
        generate_deterministic_id pc ++ ".")), db) := by
  simp [save_to_vespa, he, hins]

/-- Evaluation of `save_to_vespa` when a chunk embedding call fails: the
resource is already inserted, no chunk is. -/
theorem save_to_vespa_build_error (w : IngestWorld) (pc rt : String)
    (db : VespaDB) (remb : Vec) (e : PyErr)
    (he : w.embed (cleaned_text_of rt pc) = .ok remb)
    (hins : w.insertResourceOk = true)
    (hb : buildChunkRecords w (generate_deterministic_id pc) rt 0
            (w.chunkFn rt (cleaned_text_of rt pc)) = .error e) :
    save_to_vespa w pc rt db =
      (.error e,
       ⟨feedResource db.resources (assembledResource pc rt remb), db.chunks⟩) := by
  simp [save_to_vespa, he, hins, hb, assembledResource]

/-- Evaluation of `save_to_vespa` when the chunk records are all built: the
result is whatever the chunk batch insert yields. -/
theorem save_to_vespa_build_ok (w : IngestWorld) (pc rt : String)
    (db : VespaDB) (remb : Vec) (recs : List ChunkRecord)
    (he : w.embed (cleaned_text_of rt pc) = .ok remb)
    (hins : w.insertResourceOk = true)
    (hb : buildChunkRecords w (generate_deterministic_id pc) rt 0
            (w.chunkFn rt (cleaned_text_of rt pc)) = .ok recs) :
    save_to_vespa w pc rt db =
      ((insertManyChunks w db.chunks recs).1,
       ⟨feedResource db.resources (assembledResource pc rt remb),
        (insertManyChunks w db.chunks recs).2⟩) := by
  simp [save_to_vespa, he, hins, hb, assembledResource]

/-- C3: within one `save_to_vespa` call, the parent resource record is
inserted before any chunk insertion, and any failure aborts the remaining
steps; consequently every state reachable by running `save_to_vespa`
(including every failure state, which the model returns as the store at the
abort point) contains no chunk record whose parent resource record is
absent: each chunk in the resulting store either pre-existed or its parent
resource record (same `resource_id`) is in the resulting store. -/
theorem ingest_no_orphan_chunks (w : IngestWorld) (page_content resource_type : String)
    (db : VespaDB) (c : ChunkRecord)
    (hc : c ∈ (save_to_vespa w page_content resource_type db).2.chunks) :
    c ∈ db.chunks ∨
    ∃ r ∈ (save_to_vespa w page_content resource_type db).2.resources,
      r.fields.resource_id = c.fields.resource_id := by
  cases he : w.embed (cleaned_text_of resource_type page_content) with
  | error e =>
    rw [save_to_vespa_embed_error w _ _ db e he] at hc
    exact .inl hc
  | ok remb =>
    cases hins : w.insertResourceOk with
    | false =>
      rw [save_to_vespa_insert_fail w _ _ db remb he hins] at hc
      exact .inl hc
    | true =>
      cases hb : buildChunkRecords w (generate_deterministic_id page_content)
          resource_type 0
          (w.chunkFn resource_type (cleaned_text_of resource_type page_content)) with
      | error e =>
        rw [save_to_vespa_build_error w _ _ db remb e he hins hb] at hc
        exact .inl hc
      | ok recs =>
        rw [save_to_vespa_build_ok w _ _ db remb recs he hins hb] at hc ⊢
        rw [insertManyChunks_snd] at hc
        rcases mem_insertManyFold w recs db.chunks c hc with h' | h'
        · exact .inl h'
        · right
          exact ⟨assembledResource page_content resource_type remb,
            self_mem_feedResource db.resources _,
            (buildChunkRecords_resource_id w _ _ _ 0 recs hb c h').symm⟩

/-- Witness for C3: a successful one-chunk ingestion into an empty store; the
freshly inserted chunk's parent resource is present. -/
def c3World : IngestWorld :=
  ⟨fun _ => .ok [], fun _ _ => ["ab"], true, fun _ => true⟩

/-- The chunk record the C3 witness run inserts. -/
def c3Chunk : ChunkRecord :=
  ⟨chunk_id_of (generate_deterministic_id "abcd") "ab",
   ⟨chunk_id_of (generate_deterministic_id "abcd") "ab",
    generate_deterministic_id "abcd", "text/markdown", "ab", 0, []⟩⟩

/-- Witness for C3 at a concrete run. -/
theorem ingest_no_orphan_chunks_witness :
    c3Chunk ∈ (save_to_vespa c3World "abcd" "text/markdown" ⟨[], []⟩).2.chunks ∧
    (c3Chunk ∈ (⟨[], []⟩ : VespaDB).chunks ∨
     ∃ r ∈ (save_to_vespa c3World "abcd" "text/markdown" ⟨[], []⟩).2.resources,
       r.fields.resource_id = c3Chunk.fields.resource_id) :=
  ⟨by decide, ingest_no_orphan_chunks c3World "abcd" "text/markdown" ⟨[], []⟩ c3Chunk
    (by decide)⟩

/-! ## C8 -/

/-- Purging the resources collection under good delete outcomes: every record
goes (its collected `resource_id` equals its document id), and the result is
a success — also when the collection was already empty (the no-op guard). -/
theorem deleteItemsResources_purges (w : CleanWorld) (db : List ResourceRecord)
    (hid : ∀ r ∈ db, r.fields.resource_id = r.id)
    (hok : ∀ r ∈ db, w.resDeleteOk r.id = true) :
    deleteItemsResources w db = (.ok (), []) := by
  unfold deleteItemsResources
  cases db with
  | nil => rfl
  | cons r rest =>
    rw [if_neg (by simp)]
    have hfilter : (r :: rest).filter
        (fun x => ¬ (((r :: rest).map (fun y => y.fields.resource_id)).contains x.id ∧
          w.resDeleteOk x.id)) = [] := by
      apply List.filter_eq_nil_iff.mpr
      intro x hx
      simp only [decide_eq_true_eq, not_not]
      constructor
      · exact List.contains_iff_exists_mem_beq.mpr
          ⟨x.fields.resource_id, List.mem_map_of_mem _ hx, by simp [hid x hx]⟩
      · exact hok x hx
    have hfind : ((r :: rest).map (fun y => y.fields.resource_id)).find?
        (fun i => ¬ w.resDeleteOk i) = none := by
      apply List.find?_eq_none.mpr
      intro i hi
      rcases List.mem_map.mp hi with ⟨y, hy, hiy⟩
      simp [← hiy, hid y hy, hok y hy]
    rw [hfind]
    simp only [hfilter]

/-- Purging the chunks collection, same statement. -/
theorem deleteItemsChunks_purges (w : CleanWorld) (db : List ChunkRecord)
    (hid : ∀ c ∈ db, c.fields.chunk_id = c.id)
    (hok : ∀ c ∈ db, w.chunkDeleteOk c.id = true) :
    deleteItemsChunks w db = (.ok (), []) := by
  unfold deleteItemsChunks
  cases db with
  | nil => rfl
  | cons c rest =>
    rw [if_neg (by simp)]
    have hfilter : (c :: rest).filter
        (fun x => ¬ (((c :: rest).map (fun y => y.fields.chunk_id)).contains x.id ∧
          w.chunkDeleteOk x.id)) = [] := by
      apply List.filter_eq_nil_iff.mpr
      intro x hx
      simp only [decide_eq_true_eq, not_not]
      constructor
      · exact List.contains_iff_exists_mem_beq.mpr
          ⟨x.fields.chunk_id, List.mem_map_of_mem _ hx, by simp [hid x hx]⟩
      · exact hok x hx
    have hfind : ((c :: rest).map (fun y => y.fields.chunk_id)).find?
        (fun i => ¬ w.chunkDeleteOk i) = none := by
      apply List.find?_eq_none.mpr
      intro i hi
      rcases List.mem_map.mp hi with ⟨y, hy, hiy⟩
      simp [← hiy, hid y hy, hok y hy]
    rw [hfind]
    simp only [hfilter]

/-- C8: `clean_database` queries every record of the `resources` and `chunks`
collections, collects their ids, and bulk-deletes them per collection.  On a
store whose records carry their own id in the collected id field (the shape
`save_to_vespa` writes) and whose delete outcomes are good, it empties both
collections and succeeds; and run again — under *any* delete-outcome oracle —
the second call finds both collections empty, performs no delete (the
zero-record guard makes it a no-op, not an error), and succeeds, leaving the
store empty both times. -/
theorem clean_database_purges_idempotent (w w₂ : CleanWorld) (db : VespaDB)
    (hres : ∀ r ∈ db.resources, r.fields.resource_id = r.id)
    (hch : ∀ c ∈ db.chunks, c.fields.chunk_id = c.id)
    (hok₁ : ∀ r ∈ db.resources, w.resDeleteOk r.id = true)
    (hok₂ : ∀ c ∈ db.chunks, w.chunkDeleteOk c.id = true) :
    clean_database w db = (.ok (), ⟨[], []⟩) ∧
    clean_database w₂ ⟨[], []⟩ = (.ok (), ⟨[], []⟩) := by
  constructor
  · unfold clean_database
    rw [deleteItemsResources_purges w db.resources hres hok₁,
      deleteItemsChunks_purges w db.chunks hch hok₂]
  · rfl

/-- Witness for C8: a store holding one resource and one chunk, all delete
outcomes good. -/
def c8World : CleanWorld := ⟨fun _ => true, fun _ => true⟩

/-- The C8 witness store. -/
def c8Db : VespaDB :=
  ⟨[⟨"r1", ⟨"r1", "text/markdown", "raw", "raw", []⟩⟩],
   [⟨"c1", ⟨"c1", "r1", "text/markdown", "raw", 0, []⟩⟩]⟩

/-- Witness for C8 at a concrete store. -/
theorem clean_database_purges_idempotent_witness :
    (∀ r ∈ c8Db.resources, r.fields.resource_id = r.id) ∧
    (clean_database c8World c8Db = (.ok (), ⟨[], []⟩) ∧
     clean_database c8World ⟨[], []⟩ = (.ok (), ⟨[], []⟩)) :=
  ⟨by decide,
   clean_database_purges_idempotent c8World c8World c8Db
     (by decide) (by decide) (by decide) (by decide)⟩

/-! ## C5 -/

/-- The accumulator of the regex-substitution scanner can be discharged: the
pending whitespace joins the upcoming whitespace prefix into one flushed
run, after which scanning restarts on the remainder. -/
theorem subNlRuns_pending (cs : List Char) :
    ∀ pend : List Char,
      subNlRuns pend cs =
        flushRun (pend ++ cs.takeWhile pySpace) ++
          subNlRuns [] (cs.dropWhile pySpace) := by
  induction cs with
  | nil =>
    intro pend
    simp [subNlRuns, flushRun]
  | cons d ds ih =>
    intro pend
    by_cases hd : pySpace d
    · rw [List.takeWhile_cons_of_pos hd, List.dropWhile_cons_of_pos hd]
      simp only [subNlRuns, hd, if_true]
      rw [ih (pend ++ [d])]
      simp
    · rw [List.takeWhile_cons_of_neg hd, List.dropWhile_cons_of_neg hd]
      simp only [subNlRuns, hd, if_false]
      simp [subNlRuns, hd, flushRun]

/-- Fuel-bounded form of the equivalence between the regex-substitution
scanner and the spec's run-by-run description. -/
theorem subNlRuns_eq_specCollapse_aux :
    ∀ (n : Nat) (l : List Char), l.length ≤ n →
      subNlRuns [] l = specCollapse l := by
  intro n
  induction n with
  | zero =>
    intro l hl
    rw [List.length_eq_zero.mp (Nat.le_zero.mp hl)]
    simp [subNlRuns, specCollapse, flushRun]
  | succ n ih =>
    intro l hl
    cases l with
    | nil => simp [subNlRuns, specCollapse, flushRun]
    | cons c cs =>
      by_cases hc : pySpace c
      · have hstep : subNlRuns [] (c :: cs) = subNlRuns [c] cs := by
          simp [subNlRuns, hc]
        rw [hstep, subNlRuns_pending cs [c]]
        rw [specCollapse]
        simp only [hc, if_true]
        rw [List.takeWhile_cons_of_pos hc, List.dropWhile_cons_of_pos hc]
        have hrest : (cs.dropWhile pySpace).length ≤ n := by
          have h₁ := (List.dropWhile_sublist (l := cs) pySpace).length_le
          have h₂ : cs.length ≤ n := by simpa using hl
          omega
        rw [ih (cs.dropWhile pySpace) hrest]
        simp [flushRun]
      · have hstep : subNlRuns [] (c :: cs) = c :: subNlRuns [] cs := by
          simp [subNlRuns, hc, flushRun]
        rw [hstep, specCollapse]
        rw [if_neg (by simp [hc])]
        rw [ih cs (by simpa using Nat.lt_succ_iff.mp (Nat.lt_of_lt_of_le (Nat.lt_succ_self _) hl))]

/-- The scanner embedded from `re.sub(r'\s*\n\s*', ' ', ·)` computes exactly
the spec's replacement of every newline-containing whitespace run by one
space. -/
theorem subNlRuns_eq_specCollapse (l : List Char) :
    subNlRuns [] l = specCollapse l :=
  subNlRuns_eq_specCollapse_aux l.length l (Nat.le_refl _)

/-- `normalize_newlines` is the spec's `normalize`. -/
theorem normalize_newlines_eq_specNormalize (s : String) :
    normalize_newlines s = specNormalize s := by
  unfold normalize_newlines specNormalize
  rw [subNlRuns_eq_specCollapse]

/-- C5: the cleaned text stored by `save_to_vespa` equals
`normalize(raw_text)` for the resource type needing normalization
(`"application/pdf"`, the paginated extraction), where `normalize` replaces
every whitespace run containing a line break by a single space and trims both
ends (`specNormalize`, written from the spec's words); for every other
resource type (e.g. Markdown) the stored cleaned text is the raw text
unchanged. -/
theorem cleaned_text_normalization (resource_type raw_text : String) :
    (resource_type = "application/pdf" →
      cleaned_text_of resource_type raw_text = specNormalize raw_text) ∧
    (resource_type ≠ "application/pdf" →
      cleaned_text_of resource_type raw_text = raw_text) := by
  constructor
  · intro h
    rw [cleaned_text_of, if_pos h, normalize_newlines_eq_specNormalize]
  · intro h
    rw [cleaned_text_of, if_neg h]

/-- Witness for C5: a PDF resource is normalized (and concretely,
`"a \n\n b"` becomes `"a b"`), a Markdown resource is stored unchanged. -/
theorem cleaned_text_normalization_witness :
    (cleaned_text_of "application/pdf" "a \n\n b" = specNormalize "a \n\n b" ∧
     cleaned_text_of "text/markdown" "a \n\n b" = "a \n\n b") ∧
    normalize_newlines "a \n\n b" = "a b" :=
  ⟨⟨(cleaned_text_normalization "application/pdf" "a \n\n b").1 rfl,
    (cleaned_text_normalization "text/markdown" "a \n\n b").2 (by decide)⟩,
   by decide⟩

/-! ## C6 -/

/-- C6: in every `get_answer` round that reaches retrieval, the semantic
search is invoked with the rephrased question (the stripped output of the
rephrasing LM call — not the original question), while the prompt assembled
for the final LM call carries (i) the retrieved context chunk texts joined
with a blank-line separator in retrieval order and (ii) the serialized
conversation history whose final user turn is the original, un-rephrased
question. -/
theorem retrieval_rephrased_prompt_original (w : ChatWorld)
    (question session_id : String) (s : Sessions) (r : String) (v : Vec)
    (hits : List Hit)
    (h₁ : w.rephraseLM = .ok r) (h₂ : w.embedQuery = .ok v)
    (h₃ : w.searchHits = .ok hits) :
    (get_answer w question session_id s).2.2.searchQuery = some (pyStrip r) ∧
    (get_answer w question session_id s).2.2.finalPrompt = some
      [⟨"system", chatbotSystemText⟩,
       ⟨"system", "Context chunks:\n\n" ++
          String.intercalate "\n\n" (hits.map (fun c => c.fields.chunk_text))⟩,
       ⟨"system", "Conversation history:\n\n" ++
          String.intercalate "\n"
            ((((lookupD (ensureSession session_id s) session_id).getD []) ++
              [Message.mk "user" question]).map fmtMessage)⟩] := by
  cases ha : w.answerLM with
  | error e => simp [get_answer, h₁, h₂, h₃, ha, create_prompt]
  | ok a => simp [get_answer, h₁, h₂, h₃, ha, create_prompt]

/-- World for the C6 witness: all calls succeed; two hits are retrieved. -/
def c6World : ChatWorld :=
  ⟨.ok " What does the install script do? ", .ok [],
   .ok [⟨⟨"chunk one"⟩⟩, ⟨⟨"chunk two"⟩⟩], .ok "It installs."⟩

/-- Witness for C6 at a concrete round (note the search query is the
stripped rephrased text, not the original question `"What does it do?"`). -/
theorem retrieval_rephrased_prompt_original_witness :
    (get_answer c6World "What does it do?" "sess-1" []).2.2.searchQuery =
      some (pyStrip " What does the install script do? ") ∧
    (get_answer c6World "What does it do?" "sess-1" []).2.2.finalPrompt = some
      [⟨"system", chatbotSystemText⟩,
       ⟨"system", "Context chunks:\n\n" ++
          String.intercalate "\n\n"
            (([⟨⟨"chunk one"⟩⟩, ⟨⟨"chunk two"⟩⟩] : List Hit).map
              (fun c => c.fields.chunk_text))⟩,
       ⟨"system", "Conversation history:\n\n" ++
          String.intercalate "\n"
            ((((lookupD (ensureSession "sess-1" []) "sess-1").getD []) ++
              [Message.mk "user" "What does it do?"]).map fmtMessage)⟩] :=
  retrieval_rephrased_prompt_original c6World "What does it do?" "sess-1" []
    " What does the install script do? " [] [⟨⟨"chunk one"⟩⟩, ⟨⟨"chunk two"⟩⟩]
    rfl rfl rfl

/-! ## C1 -/

/-- World for the C1 counterexample: rephrasing, embedding and search all
succeed; the final LM call fails. -/
def c1World : ChatWorld := ⟨.ok "R", .ok [], .ok [], .error (.exc "boom")⟩

/-- C1 counterexample: when the final LM call fails, `get_answer` does abort
with the error — but the session's message sequence is *not* left
unmodified: the user turn appended during prompt construction was appended
to the very list stored in the session (aliasing through
`conversation_history()`), so a partial turn is recorded on failure. -/
theorem chat_partial_turn_on_final_failure :
    (get_answer c1World "Q" "sess-1" [("sess-1", [])]).1 = .error (.exc "boom") ∧
    (get_answer c1World "Q" "sess-1" [("sess-1", [])]).2.1 =
      [("sess-1", [⟨"user", "Q"⟩])] ∧
    ([("sess-1", [⟨"user", "Q"⟩])] : Sessions) ≠ [("sess-1", [])] := by
  refine ⟨rfl, rfl, ?_⟩
  decide

/-- C1 as amended: a failure of the rephrasing LM call, of the query
embedding, or of the vector-store search aborts `get_answer` with the
surfaced error and leaves every session's message sequence unmodified (the
map is at most extended by a fresh empty session for a new id); but a
failure of the *final* LM call aborts only after prompt construction has
already appended the user turn into the session's stored message list (list
aliasing through `conversation_history()`), so exactly that partial user
turn — and no assistant turn — is recorded on such a failure. -/
theorem chat_failure_session_effects (w : ChatWorld)
    (question session_id : String) (s : Sessions) :
    (∀ e, w.rephraseLM = .error e →
      (get_answer w question session_id s).1 = .error e ∧
      (get_answer w question session_id s).2.1 = ensureSession session_id s) ∧
    (∀ r e, w.rephraseLM = .ok r → w.embedQuery = .error e →
      (get_answer w question session_id s).1 = .error e ∧
      (get_answer w question session_id s).2.1 = ensureSession session_id s) ∧
    (∀ r v e, w.rephraseLM = .ok r → w.embedQuery = .ok v →
      w.searchHits = .error e →
      (get_answer w question session_id s).1 = .error e ∧
      (get_answer w question session_id s).2.1 = ensureSession session_id s) ∧
    (∀ r v hits e, w.rephraseLM = .ok r → w.embedQuery = .ok v →
      w.searchHits = .ok hits → w.answerLM = .error e →
      (get_answer w question session_id s).1 = .error e ∧
      (get_answer w question session_id s).2.1 =
        setD (ensureSession session_id s) session_id
          (((lookupD (ensureSession session_id s) session_id).getD []) ++
            [⟨"user", question⟩])) := by
  refine ⟨?_, ?_, ?_, ?_⟩
  · intro e h₁
    constructor <;> simp [get_answer, h₁]
  · intro r e h₁ h₂
    constructor <;> simp [get_answer, h₁, h₂]
  · intro r v e h₁ h₂ h₃
    constructor <;> simp [get_answer, h₁, h₂, h₃]
  · intro r v hits e h₁ h₂ h₃ h₄
    constructor <;> simp [get_answer, h₁, h₂, h₃, h₄, create_prompt]

/-- Witness for C1 (amended) at a concrete failing rephrase call. -/
def c1WitnessWorld : ChatWorld :=
  ⟨.error (.exc "rate limited"), .ok [], .ok [], .ok "A"⟩

/-- Witness for C1: a rephrasing failure surfaces the error and leaves the
session map exactly as `ensureSession` made it. -/
theorem chat_failure_session_effects_witness :
    c1WitnessWorld.rephraseLM = .error (.exc "rate limited") ∧
    ((get_answer c1WitnessWorld "Q" "sess-1" [("sess-1", [⟨"assistant", "hi"⟩])]).1 =
       .error (.exc "rate limited") ∧
     (get_answer c1WitnessWorld "Q" "sess-1" [("sess-1", [⟨"assistant", "hi"⟩])]).2.1 =
       ensureSession "sess-1" [("sess-1", [⟨"assistant", "hi"⟩])]) :=
  ⟨rfl,
   (chat_failure_session_effects c1WitnessWorld "Q" "sess-1"
     [("sess-1", [⟨"assistant", "hi"⟩])]).1 (.exc "rate limited") rfl⟩

/-! ## C2 -/

/-- World for the C2 counterexample: every call succeeds. -/
def c2World : ChatWorld := ⟨.ok "R", .ok [], .ok [], .ok "A"⟩

/-- C2 counterexample: after one fully successful answer round on a fresh
session, the session's stored message sequence is `[user, assistant]` — it
contains a user-role message, so it is *not* true that the session holds
only assistant messages (`conversation_history()` hands out the stored list
itself, and `create_prompt`'s append persists the user turn into it). -/
theorem session_records_user_turns :
    (get_answer c2World "Q" "sess-1" []).1 = .ok "A" ∧
    (get_answer c2World "Q" "sess-1" []).2.1 =
      [("sess-1", [⟨"user", "Q"⟩, ⟨"assistant", "A"⟩])] ∧
    ¬ (∀ m ∈ [Message.mk "user" "Q", Message.mk "assistant" "A"],
        m.role = "assistant") := by
  refine ⟨rfl, rfl, ?_⟩
  decide

/-- C2 as amended: `conversation_history()` returns the session's stored
message list itself (an alias, not a read-only copy).  The session appends
an assistant message via `update_session`, but the user turn appended by
`create_prompt` to the returned list is persisted into the session too; so
one successful answer round extends the session's message sequence by
exactly `[user question, assistant answer]` (not by the assistant message
alone), and the sequence interleaves user and assistant turns rather than
containing only assistant messages. -/
theorem successful_round_appends_user_assistant (w : ChatWorld)
    (question session_id : String) (s : Sessions) (r : String) (v : Vec)
    (hits : List Hit) (a : String)
    (h₁ : w.rephraseLM = .ok r) (h₂ : w.embedQuery = .ok v)
    (h₃ : w.searchHits = .ok hits) (h₄ : w.answerLM = .ok a) :
    (get_answer w question session_id s).1 = .ok a ∧
    lookupD (get_answer w question session_id s).2.1 session_id =
      some (((lookupD (ensureSession session_id s) session_id).getD []) ++
        [⟨"user", question⟩, ⟨"assistant", a⟩]) := by
  constructor
  · simp [get_answer, h₁, h₂, h₃, h₄]
  · simp only [get_answer, h₁, h₂, h₃, h₄, create_prompt]
    rw [lookupD_setD_self]
    simp

/-- Witness for C2 (amended): a concrete successful round on a session that
already held one assistant message. -/
theorem successful_round_appends_user_assistant_witness :
    c2World.rephraseLM = .ok "R" ∧
    ((get_answer c2World "Q" "sess-1" [("sess-1", [⟨"assistant", "hi"⟩])]).1 =
       .ok "A" ∧
     lookupD (get_answer c2World "Q" "sess-1"
         [("sess-1", [⟨"assistant", "hi"⟩])]).2.1 "sess-1" =
       some (((lookupD (ensureSession "sess-1"
           [("sess-1", [⟨"assistant", "hi"⟩])]) "sess-1").getD []) ++
         [⟨"user", "Q"⟩, ⟨"assistant", "A"⟩])) :=
  ⟨rfl,
   successful_round_appends_user_assistant c2World "Q" "sess-1"
     [("sess-1", [⟨"assistant", "hi"⟩])] "R" [] [] "A" rfl rfl rfl rfl⟩

end TechDocsRag
